import Mathlib

/-!
Shallow embedding of `src/main.rs` of the rust-user-input-validation
program: a registry of string validation predicates, a composite
`Validator` (logical AND of its stored predicates), and the generic
prompt / read / trim / parse / validate loop `read_input` /
`read_input_with_cursor`, modelled over an explicit list of line-read
results standing for the input source.
-/

/-- Codepoint ranges of Unicode general category Nd (decimal digit numbers), the category Rust reports for decimal digits. -/
def ndRanges : List (Nat × Nat) := [
  (48, 57), (1632, 1641), (1776, 1785), (1984, 1993), (2406, 2415), (2534, 2543), (2662, 2671), (2790, 2799),
  (2918, 2927), (3046, 3055), (3174, 3183), (3302, 3311), (3430, 3439), (3558, 3567), (3664, 3673), (3792, 3801),
  (3872, 3881), (4160, 4169), (4240, 4249), (6112, 6121), (6160, 6169), (6470, 6479), (6608, 6617), (6784, 6793),
  (6800, 6809), (6992, 7001), (7088, 7097), (7232, 7241), (7248, 7257), (42528, 42537), (43216, 43225), (43264, 43273),
  (43472, 43481), (43504, 43513), (43600, 43609), (44016, 44025), (65296, 65305), (66720, 66729), (68912, 68921), (69734, 69743),
  (69872, 69881), (69942, 69951), (70096, 70105), (70384, 70393), (70736, 70745), (70864, 70873), (71248, 71257), (71360, 71369),
  (71472, 71481), (71904, 71913), (72016, 72025), (72784, 72793), (73040, 73049), (73120, 73129), (92768, 92777), (92864, 92873),
  (93008, 93017), (120782, 120831), (123200, 123209), (123632, 123641), (125264, 125273), (130032, 130041)
]

/-- Codepoint ranges of Unicode general category Nl (letter numbers, e.g. Roman numerals). -/
def nlRanges : List (Nat × Nat) := [
  (5870, 5872), (8544, 8578), (8581, 8584), (12295, 12295), (12321, 12329), (12344, 12346), (42726, 42735), (65856, 65908),
  (66369, 66369), (66378, 66378), (66513, 66517), (74752, 74862)
]

/-- Codepoint ranges of Unicode general category No (other numbers, e.g. fractions such as the vulgar fraction one half). -/
def noRanges : List (Nat × Nat) := [
  (178, 179), (185, 185), (188, 190), (2548, 2553), (2930, 2935), (3056, 3058), (3192, 3198), (3416, 3422),
  (3440, 3448), (3882, 3891), (4969, 4988), (6128, 6137), (6618, 6618), (8304, 8304), (8308, 8313), (8320, 8329),
  (8528, 8543), (8585, 8585), (9312, 9371), (9450, 9471), (10102, 10131), (11517, 11517), (12690, 12693), (12832, 12841),
  (12872, 12879), (12881, 12895), (12928, 12937), (12977, 12991), (43056, 43061), (65799, 65843), (65909, 65912), (65930, 65931),
  (66273, 66299), (66336, 66339), (67672, 67679), (67705, 67711), (67751, 67759), (67835, 67839), (67862, 67867), (68028, 68029),
  (68032, 68047), (68050, 68095), (68160, 68168), (68221, 68222), (68253, 68255), (68331, 68335), (68440, 68447), (68472, 68479),
  (68521, 68527), (68858, 68863), (69216, 69246), (69405, 69414), (69457, 69460), (69573, 69579), (69714, 69733), (70113, 70132),
  (71482, 71483), (71914, 71922), (72794, 72812), (73664, 73684), (93019, 93025), (93824, 93846), (119520, 119539), (119648, 119672),
  (125127, 125135), (126065, 126123), (126125, 126127), (126129, 126132), (126209, 126253), (126255, 126269), (127232, 127244)
]

/-- Codepoint ranges of the word-character class recognised by the backslash-w class of the Rust regex crate (Unicode letters, marks, decimal digits, letter numbers, connector punctuation, and the two join controls). -/
def wordRanges : List (Nat × Nat) := [
  (48, 57), (65, 90), (95, 95), (97, 122), (170, 170), (181, 181), (186, 186), (192, 214),
  (216, 246), (248, 705), (710, 721), (736, 740), (748, 748), (750, 750), (768, 884), (886, 887),
  (890, 893), (895, 895), (902, 902), (904, 906), (908, 908), (910, 929), (931, 1013), (1015, 1153),
  (1155, 1327), (1329, 1366), (1369, 1369), (1376, 1416), (1425, 1469), (1471, 1471), (1473, 1474), (1476, 1477),
  (1479, 1479), (1488, 1514), (1519, 1522), (1552, 1562), (1568, 1641), (1646, 1747), (1749, 1756), (1759, 1768),
  (1770, 1788), (1791, 1791), (1808, 1866), (1869, 1969), (1984, 2037), (2042, 2042), (2045, 2045), (2048, 2093),
  (2112, 2139), (2144, 2154), (2160, 2183), (2185, 2190), (2200, 2273), (2275, 2403), (2406, 2415), (2417, 2435),
  (2437, 2444), (2447, 2448), (2451, 2472), (2474, 2480), (2482, 2482), (2486, 2489), (2492, 2500), (2503, 2504),
  (2507, 2510), (2519, 2519), (2524, 2525), (2527, 2531), (2534, 2545), (2556, 2556), (2558, 2558), (2561, 2563),
  (2565, 2570), (2575, 2576), (2579, 2600), (2602, 2608), (2610, 2611), (2613, 2614), (2616, 2617), (2620, 2620),
  (2622, 2626), (2631, 2632), (2635, 2637), (2641, 2641), (2649, 2652), (2654, 2654), (2662, 2677), (2689, 2691),
  (2693, 2701), (2703, 2705), (2707, 2728), (2730, 2736), (2738, 2739), (2741, 2745), (2748, 2757), (2759, 2761),
  (2763, 2765), (2768, 2768), (2784, 2787), (2790, 2799), (2809, 2815), (2817, 2819), (2821, 2828), (2831, 2832),
  (2835, 2856), (2858, 2864), (2866, 2867), (2869, 2873), (2876, 2884), (2887, 2888), (2891, 2893), (2901, 2903),
  (2908, 2909), (2911, 2915), (2918, 2927), (2929, 2929), (2946, 2947), (2949, 2954), (2958, 2960), (2962, 2965),
  (2969, 2970), (2972, 2972), (2974, 2975), (2979, 2980), (2984, 2986), (2990, 3001), (3006, 3010), (3014, 3016),
  (3018, 3021), (3024, 3024), (3031, 3031), (3046, 3055), (3072, 3084), (3086, 3088), (3090, 3112), (3114, 3129),
  (3132, 3140), (3142, 3144), (3146, 3149), (3157, 3158), (3160, 3162), (3165, 3165), (3168, 3171), (3174, 3183),
  (3200, 3203), (3205, 3212), (3214, 3216), (3218, 3240), (3242, 3251), (3253, 3257), (3260, 3268), (3270, 3272),
  (3274, 3277), (3285, 3286), (3293, 3294), (3296, 3299), (3302, 3311), (3313, 3314), (3328, 3340), (3342, 3344),
  (3346, 3396), (3398, 3400), (3402, 3406), (3412, 3415), (3423, 3427), (3430, 3439), (3450, 3455), (3457, 3459),
  (3461, 3478), (3482, 3505), (3507, 3515), (3517, 3517), (3520, 3526), (3530, 3530), (3535, 3540), (3542, 3542),
  (3544, 3551), (3558, 3567), (3570, 3571), (3585, 3642), (3648, 3662), (3664, 3673), (3713, 3714), (3716, 3716),
  (3718, 3722), (3724, 3747), (3749, 3749), (3751, 3773), (3776, 3780), (3782, 3782), (3784, 3789), (3792, 3801),
  (3804, 3807), (3840, 3840), (3864, 3865), (3872, 3881), (3893, 3893), (3895, 3895), (3897, 3897), (3902, 3911),
  (3913, 3948), (3953, 3972), (3974, 3991), (3993, 4028), (4038, 4038), (4096, 4169), (4176, 4253), (4256, 4293),
  (4295, 4295), (4301, 4301), (4304, 4346), (4348, 4680), (4682, 4685), (4688, 4694), (4696, 4696), (4698, 4701),
  (4704, 4744), (4746, 4749), (4752, 4784), (4786, 4789), (4792, 4798), (4800, 4800), (4802, 4805), (4808, 4822),
  (4824, 4880), (4882, 4885), (4888, 4954), (4957, 4959), (4992, 5007), (5024, 5109), (5112, 5117), (5121, 5740),
  (5743, 5759), (5761, 5786), (5792, 5866), (5870, 5880), (5888, 5909), (5919, 5940), (5952, 5971), (5984, 5996),
  (5998, 6000), (6002, 6003), (6016, 6099), (6103, 6103), (6108, 6109), (6112, 6121), (6155, 6157), (6159, 6169),
  (6176, 6264), (6272, 6314), (6320, 6389), (6400, 6430), (6432, 6443), (6448, 6459), (6470, 6509), (6512, 6516),
  (6528, 6571), (6576, 6601), (6608, 6617), (6656, 6683), (6688, 6750), (6752, 6780), (6783, 6793), (6800, 6809),
  (6823, 6823), (6832, 6862), (6912, 6988), (6992, 7001), (7019, 7027), (7040, 7155), (7168, 7223), (7232, 7241),
  (7245, 7293), (7296, 7304), (7312, 7354), (7357, 7359), (7376, 7378), (7380, 7418), (7424, 7957), (7960, 7965),
  (7968, 8005), (8008, 8013), (8016, 8023), (8025, 8025), (8027, 8027), (8029, 8029), (8031, 8061), (8064, 8116),
  (8118, 8124), (8126, 8126), (8130, 8132), (8134, 8140), (8144, 8147), (8150, 8155), (8160, 8172), (8178, 8180),
  (8182, 8188), (8204, 8205), (8255, 8256), (8276, 8276), (8305, 8305), (8319, 8319), (8336, 8348), (8400, 8432),
  (8450, 8450), (8455, 8455), (8458, 8467), (8469, 8469), (8473, 8477), (8484, 8484), (8486, 8486), (8488, 8488),
  (8490, 8493), (8495, 8505), (8508, 8511), (8517, 8521), (8526, 8526), (8544, 8584), (11264, 11492), (11499, 11507),
  (11520, 11557), (11559, 11559), (11565, 11565), (11568, 11623), (11631, 11631), (11647, 11670), (11680, 11686), (11688, 11694),
  (11696, 11702), (11704, 11710), (11712, 11718), (11720, 11726), (11728, 11734), (11736, 11742), (11744, 11775), (11823, 11823),
  (12293, 12295), (12321, 12335), (12337, 12341), (12344, 12348), (12353, 12438), (12441, 12442), (12445, 12447), (12449, 12538),
  (12540, 12543), (12549, 12591), (12593, 12686), (12704, 12735), (12784, 12799), (13312, 19903), (19968, 42124), (42192, 42237),
  (42240, 42508), (42512, 42539), (42560, 42610), (42612, 42621), (42623, 42737), (42775, 42783), (42786, 42888), (42891, 42954),
  (42960, 42961), (42963, 42963), (42965, 42969), (42994, 43047), (43052, 43052), (43072, 43123), (43136, 43205), (43216, 43225),
  (43232, 43255), (43259, 43259), (43261, 43309), (43312, 43347), (43360, 43388), (43392, 43456), (43471, 43481), (43488, 43518),
  (43520, 43574), (43584, 43597), (43600, 43609), (43616, 43638), (43642, 43714), (43739, 43741), (43744, 43759), (43762, 43766),
  (43777, 43782), (43785, 43790), (43793, 43798), (43808, 43814), (43816, 43822), (43824, 43866), (43868, 43881), (43888, 44010),
  (44012, 44013), (44016, 44025), (44032, 55203), (55216, 55238), (55243, 55291), (63744, 64109), (64112, 64217), (64256, 64262),
  (64275, 64279), (64285, 64296), (64298, 64310), (64312, 64316), (64318, 64318), (64320, 64321), (64323, 64324), (64326, 64433),
  (64467, 64829), (64848, 64911), (64914, 64967), (65008, 65019), (65024, 65039), (65056, 65071), (65075, 65076), (65101, 65103),
  (65136, 65140), (65142, 65276), (65296, 65305), (65313, 65338), (65343, 65343), (65345, 65370), (65382, 65470), (65474, 65479),
  (65482, 65487), (65490, 65495), (65498, 65500), (65536, 65547), (65549, 65574), (65576, 65594), (65596, 65597), (65599, 65613),
  (65616, 65629), (65664, 65786), (65856, 65908), (66045, 66045), (66176, 66204), (66208, 66256), (66272, 66272), (66304, 66335),
  (66349, 66378), (66384, 66426), (66432, 66461), (66464, 66499), (66504, 66511), (66513, 66517), (66560, 66717), (66720, 66729),
  (66736, 66771), (66776, 66811), (66816, 66855), (66864, 66915), (66928, 66938), (66940, 66954), (66956, 66962), (66964, 66965),
  (66967, 66977), (66979, 66993), (66995, 67001), (67003, 67004), (67072, 67382), (67392, 67413), (67424, 67431), (67456, 67461),
  (67463, 67504), (67506, 67514), (67584, 67589), (67592, 67592), (67594, 67637), (67639, 67640), (67644, 67644), (67647, 67669),
  (67680, 67702), (67712, 67742), (67808, 67826), (67828, 67829), (67840, 67861), (67872, 67897), (67968, 68023), (68030, 68031),
  (68096, 68099), (68101, 68102), (68108, 68115), (68117, 68119), (68121, 68149), (68152, 68154), (68159, 68159), (68192, 68220),
  (68224, 68252), (68288, 68295), (68297, 68326), (68352, 68405), (68416, 68437), (68448, 68466), (68480, 68497), (68608, 68680),
  (68736, 68786), (68800, 68850), (68864, 68903), (68912, 68921), (69248, 69289), (69291, 69292), (69296, 69297), (69376, 69404),
  (69415, 69415), (69424, 69456), (69488, 69509), (69552, 69572), (69600, 69622), (69632, 69702), (69734, 69749), (69759, 69818),
  (69826, 69826), (69840, 69864), (69872, 69881), (69888, 69940), (69942, 69951), (69956, 69959), (69968, 70003), (70006, 70006),
  (70016, 70084), (70089, 70092), (70094, 70106), (70108, 70108), (70144, 70161), (70163, 70199), (70206, 70206), (70272, 70278),
  (70280, 70280), (70282, 70285), (70287, 70301), (70303, 70312), (70320, 70378), (70384, 70393), (70400, 70403), (70405, 70412),
  (70415, 70416), (70419, 70440), (70442, 70448), (70450, 70451), (70453, 70457), (70459, 70468), (70471, 70472), (70475, 70477),
  (70480, 70480), (70487, 70487), (70493, 70499), (70502, 70508), (70512, 70516), (70656, 70730), (70736, 70745), (70750, 70753),
  (70784, 70853), (70855, 70855), (70864, 70873), (71040, 71093), (71096, 71104), (71128, 71133), (71168, 71232), (71236, 71236),
  (71248, 71257), (71296, 71352), (71360, 71369), (71424, 71450), (71453, 71467), (71472, 71481), (71488, 71494), (71680, 71738),
  (71840, 71913), (71935, 71942), (71945, 71945), (71948, 71955), (71957, 71958), (71960, 71989), (71991, 71992), (71995, 72003),
  (72016, 72025), (72096, 72103), (72106, 72151), (72154, 72161), (72163, 72164), (72192, 72254), (72263, 72263), (72272, 72345),
  (72349, 72349), (72368, 72440), (72704, 72712), (72714, 72758), (72760, 72768), (72784, 72793), (72818, 72847), (72850, 72871),
  (72873, 72886), (72960, 72966), (72968, 72969), (72971, 73014), (73018, 73018), (73020, 73021), (73023, 73031), (73040, 73049),
  (73056, 73061), (73063, 73064), (73066, 73102), (73104, 73105), (73107, 73112), (73120, 73129), (73440, 73462), (73648, 73648),
  (73728, 74649), (74752, 74862), (74880, 75075), (77712, 77808), (77824, 78894), (82944, 83526), (92160, 92728), (92736, 92766),
  (92768, 92777), (92784, 92862), (92864, 92873), (92880, 92909), (92912, 92916), (92928, 92982), (92992, 92995), (93008, 93017),
  (93027, 93047), (93053, 93071), (93760, 93823), (93952, 94026), (94031, 94087), (94095, 94111), (94176, 94177), (94179, 94180),
  (94192, 94193), (94208, 100343), (100352, 101589), (101632, 101640), (110576, 110579), (110581, 110587), (110589, 110590), (110592, 110882),
  (110928, 110930), (110948, 110951), (110960, 111355), (113664, 113770), (113776, 113788), (113792, 113800), (113808, 113817), (113821, 113822),
  (118528, 118573), (118576, 118598), (119141, 119145), (119149, 119154), (119163, 119170), (119173, 119179), (119210, 119213), (119362, 119364),
  (119808, 119892), (119894, 119964), (119966, 119967), (119970, 119970), (119973, 119974), (119977, 119980), (119982, 119993), (119995, 119995),
  (119997, 120003), (120005, 120069), (120071, 120074), (120077, 120084), (120086, 120092), (120094, 120121), (120123, 120126), (120128, 120132),
  (120134, 120134), (120138, 120144), (120146, 120485), (120488, 120512), (120514, 120538), (120540, 120570), (120572, 120596), (120598, 120628),
  (120630, 120654), (120656, 120686), (120688, 120712), (120714, 120744), (120746, 120770), (120772, 120779), (120782, 120831), (121344, 121398),
  (121403, 121452), (121461, 121461), (121476, 121476), (121499, 121503), (121505, 121519), (122624, 122654), (122880, 122886), (122888, 122904),
  (122907, 122913), (122915, 122916), (122918, 122922), (123136, 123180), (123184, 123197), (123200, 123209), (123214, 123214), (123536, 123566),
  (123584, 123641), (124896, 124902), (124904, 124907), (124909, 124910), (124912, 124926), (124928, 125124), (125136, 125142), (125184, 125259),
  (125264, 125273), (126464, 126467), (126469, 126495), (126497, 126498), (126500, 126500), (126503, 126503), (126505, 126514), (126516, 126519),
  (126521, 126521), (126523, 126523), (126530, 126530), (126535, 126535), (126537, 126537), (126539, 126539), (126541, 126543), (126545, 126546),
  (126548, 126548), (126551, 126551), (126553, 126553), (126555, 126555), (126557, 126557), (126559, 126559), (126561, 126562), (126564, 126564),
  (126567, 126570), (126572, 126578), (126580, 126583), (126585, 126588), (126590, 126590), (126592, 126601), (126603, 126619), (126625, 126627),
  (126629, 126633), (126635, 126651), (130032, 130041), (131072, 173791), (173824, 177976), (177984, 178205), (178208, 183969), (183984, 191456),
  (194560, 195101), (196608, 201546), (917760, 917999)
]

/-- Membership of a codepoint in a list of inclusive codepoint ranges. -/
def inRanges (rs : List (Nat × Nat)) (n : Nat) : Bool :=
  rs.any fun r => decide (r.1 ≤ n) && decide (n ≤ r.2)

/-- True iff `c` has Unicode general category Nd: a decimal-digit character. -/
def isNd (c : Char) : Bool := inRanges ndRanges c.toNat

/-- Embedding of Rust `char::is_numeric`, used by `validate_name`: true iff
the general category of the character is one of Nd, Nl, No. -/
def rust_is_numeric (c : Char) : Bool :=
  isNd c || inRanges nlRanges c.toNat || inRanges noRanges c.toNat

/-- Embedding of the word-character class of the regex crate. -/
def isWordChar (c : Char) : Bool := inRanges wordRanges c.toNat

/-- Embedding of Rust `char::is_whitespace` (the White_Space property),
the class removed by `str::trim`. -/
def rust_is_whitespace (c : Char) : Bool :=
  inRanges [(9, 13), (32, 32), (133, 133), (160, 160), (5760, 5760),
    (8192, 8202), (8232, 8233), (8239, 8239), (8287, 8287), (12288, 12288)] c.toNat

/-- Embedding of Rust `str::trim`: strip leading and trailing whitespace. -/
def trimChars (l : List Char) : List Char :=
  ((l.dropWhile rust_is_whitespace).reverse.dropWhile rust_is_whitespace).reverse

/-- Rust `str::trim` on strings. -/
def rustTrim (s : String) : String := ⟨trimChars s.data⟩

/-- Abstract syntax of the regex fragment the program uses: character
classes, concatenation, one-or-more repetition.  The email pattern is
anchored at both ends, so whole-string matching embeds `Regex::is_match`. -/
inductive RE where
  | cls (p : Char → Bool)
  | seq (a b : RE)
  | plus (a : RE)

/-- All ways of splitting a list into a prefix and a suffix. -/
def splits : List Char → List (List Char × List Char)
  | [] => [([], [])]
  | c :: t => ([], c :: t) :: (splits t).map fun p => (c :: p.1, p.2)

/-- The splits whose prefix is nonempty. -/
def splitsNE (s : List Char) : List (List Char × List Char) :=
  (splits s).filter fun p => !p.1.isEmpty

/-- A character class matches exactly the one-character strings whose
character satisfies it. -/
def clsMatch (p : Char → Bool) : List Char → Bool
  | [c] => p c
  | _ => false

/-- One-or-more repetitions of a piece matcher `rm`: either the whole
string matches `rm`, or a nonempty prefix matches `rm` and the strictly
shorter suffix matches the repetition again. -/
def rmatchPlus (rm : List Char → Bool) (s : List Char) : Bool :=
  rm s || (splitsNE s).any fun uv =>
    if _h : uv.2.length < s.length then rm uv.1 && rmatchPlus rm uv.2 else false
termination_by s.length
decreasing_by exact _h

/-- Matching a regex against an entire string (the pattern is anchored). -/
def rmatch : RE → List Char → Bool
  | .cls p, s => clsMatch p s
  | .seq a b, s => (splits s).any fun uv => rmatch a uv.1 && rmatch b uv.2
  | .plus a, s => rmatchPlus (fun u => rmatch a u) s

/-- The character class of the local and domain segments of the email
regex: word characters, the dot, or the hyphen. -/
def wdChar (c : Char) : Bool := isWordChar c || c == '.' || c == '-'

/-- The email regex of `validate_email` as an `RE`: one-or-more
word/dot/hyphen characters, an at sign, one-or-more word/dot/hyphen
characters, a literal dot, one-or-more word characters. -/
def emailRE : RE :=
  .seq (.plus (.cls wdChar))
    (.seq (.cls fun c => c == '@')
      (.seq (.plus (.cls wdChar))
        (.seq (.cls fun c => c == '.') (.plus (.cls isWordChar)))))

namespace ValidationMethods

/-- Embedding of `ValidationMethods::validate_name`: no character of the
string is numeric. -/
def validate_name (name : String) : Bool :=
  !(name.data.any fun c => rust_is_numeric c)

/-- Embedding of `ValidationMethods::validate_email`: the anchored email
regex matches the whole string. -/
def validate_email (email : String) : Bool := rmatch emailRE email.data

/-- Embedding of `ValidationMethods::not_empty`. -/
def not_empty (value : String) : Bool := !value.data.isEmpty

end ValidationMethods

/-- Embedding of the `Validator` struct: the stored predicates. -/
structure Validator where
  validations : List (String → Bool)

/-- Embedding of `Validator::new`. -/
def Validator.new (validations : List (String → Bool)) : Validator :=
  ⟨validations⟩

/-- Embedding of `Validator::validate`: every stored predicate accepts the input. -/
def Validator.validate (v : Validator) (input : String) : Bool :=
  v.validations.all fun validation => validation input

/-- Expansion of `validator_factory!(not_empty, validate_name)`, the validator of the name field. -/
def nameValidator : Validator :=
  Validator.new [ValidationMethods.not_empty, ValidationMethods.validate_name]

/-- Expansion of `validator_factory!(not_empty, validate_email)`, the validator of the email field. -/
def emailValidator : Validator :=
  Validator.new [ValidationMethods.not_empty, ValidationMethods.validate_email]

/-- Expansion of `validator_factory!(not_empty)`, the validator of the age field. -/
def ageValidator : Validator :=
  Validator.new [ValidationMethods.not_empty]

/-- Embedding of `str::parse::<String>` (`String::from_str`): never fails. -/
def parseString (s : String) : Option String := some s

/-- Embedding of `str::parse::<u32>` (`u32::from_str`): an optional leading
plus sign, then one or more ASCII digits, and the value is at most
`u32::MAX`; anything else is a parse error. -/
def parse_u32 (s : String) : Option Nat :=
  let ds := match s.data with
    | '+' :: t => t
    | t => t
  if ds.isEmpty then none
  else if ds.all Char.isDigit then
    let n := ds.foldl (fun a c => a * 10 + (c.toNat - 48)) 0
    if n ≤ 4294967295 then some n else none
  else none

/-- One result of `read_line` on the line source: a line (with its
trailing newline, when present) or an underlying read error. -/
inductive ReadResult where
  | ok (line : String)
  | err
deriving DecidableEq

/-- Reading one line: an exhausted source yields the empty line, because at
end of input the Rust `read_line` returns `Ok(0)` leaving the buffer empty —
it is not an error. -/
def readLine : List ReadResult → ReadResult × List ReadResult
  | [] => (.ok "", [])
  | r :: rest => (r, rest)

/-- A line printed to standard output, tagged by the `println!` site that
emitted it: the prompt, or a diagnostic. -/
inductive OutLine where
  | prompt (text : String)
  | diag (text : String)
deriving DecidableEq

/-- The validation-failure diagnostic. -/
def invalidMsg : String := "Invalid input, please try again."

/-- The parse-failure diagnostic. -/
def convertMsg : String := "Failed to convert value, please try again."

/-- Result of running the prompting loop with bounded fuel: a returned
value, the fatal abort (the `expect` panic on a read error), or fuel
exhaustion while the loop is still running.  Each carries the lines
printed so far and, where the loop would go on, the unconsumed source. -/
inductive Outcome (T : Type) where
  | ret (value : T) (output : List OutLine) (rest : List ReadResult)
  | fatal (output : List OutLine)
  | spin (output : List OutLine) (rest : List ReadResult)
deriving DecidableEq

/-- Prepend already-printed lines to the output of an outcome. -/
def addOutput {T : Type} (pre : List OutLine) : Outcome T → Outcome T
  | .ret v out rest => .ret v (pre ++ out) rest
  | .fatal out => .fatal (pre ++ out)
  | .spin out rest => .spin (pre ++ out) rest

/-- Embedding of `read_input_with_cursor` (and of `read_input`, whose body
is identical with standard input as the source): print the prompt, read
one line, trim it, parse the trimmed text, validate the trimmed text, and
return the parsed value on success; otherwise print the matching
diagnostic and loop. -/
def read_input_with_cursor {T : Type} (prompt : String) (validator : Validator)
    (parse : String → Option T) : Nat → List ReadResult → Outcome T
  | 0, src => .spin [] src
  | n + 1, src =>
    match readLine src with
    | (.err, _) => .fatal [.prompt prompt]
    | (.ok line, rest) =>
      let input := rustTrim line
      match parse input with
      | some value =>
        if validator.validate input then .ret value [.prompt prompt] rest
        else addOutput [.prompt prompt, .diag invalidMsg]
          (read_input_with_cursor prompt validator parse n rest)
      | none => addOutput [.prompt prompt, .diag convertMsg]
          (read_input_with_cursor prompt validator parse n rest)

/-- The output lines of an outcome. -/
def outputOf {T : Type} : Outcome T → List OutLine
  | .ret _ out _ => out
  | .fatal out => out
  | .spin out _ => out

/-- Whether an outcome is the fatal abort. -/
def isFatal {T : Type} : Outcome T → Bool
  | .fatal _ => true
  | _ => false

/-- Whether an outcome returned a value. -/
def isRet {T : Type} : Outcome T → Bool
  | .ret _ _ _ => true
  | _ => false

/-- Whether the source contains a read error. -/
def hasReadErr : List ReadResult → Bool
  | [] => false
  | .err :: _ => true
  | .ok _ :: t => hasReadErr t

theorem mem_splits {s u v : List Char} : (u, v) ∈ splits s ↔ u ++ v = s := by
  induction s generalizing u v with
  | nil => simp [splits]
  | cons c t ih =>
    cases u with
    | nil => simp [splits]
    | cons x u2 =>
      simp [splits, ih]
      exact ⟨fun h => ⟨h.2.symm, h.1⟩, fun h => ⟨h.2, h.1.symm⟩⟩

theorem mem_splitsNE {s u v : List Char} : (u, v) ∈ splitsNE s ↔ u ++ v = s ∧ u ≠ [] := by
  simp [splitsNE, List.mem_filter, mem_splits]

theorem clsMatch_iff {p : Char → Bool} {s : List Char} :
    clsMatch p s = true ↔ ∃ c, s = [c] ∧ p c = true := by
  cases s with
  | nil => simp [clsMatch]
  | cons c t =>
    cases t with
    | nil => simp [clsMatch]
    | cons d t2 => simp [clsMatch]

theorem rmatchPlus_cls_iff {p : Char → Bool} (s : List Char) :
    rmatchPlus (clsMatch p) s = true ↔ s ≠ [] ∧ ∀ c ∈ s, p c = true := by
  induction s with
  | nil =>
    rw [rmatchPlus]
    simp [splitsNE, splits, clsMatch]
  | cons c t ih =>
    rw [rmatchPlus]
    simp only [Bool.or_eq_true, List.any_eq_true]
    constructor
    · rintro (h1 | ⟨⟨u, v⟩, hm, hd⟩)
      · obtain ⟨d, hs, hp⟩ := clsMatch_iff.mp h1
        rw [List.cons_eq_cons] at hs
        obtain ⟨hcd, ht⟩ := hs
        subst hcd; subst ht
        exact ⟨by simp, by simpa using hp⟩
      · obtain ⟨huv, hne⟩ := mem_splitsNE.mp hm
        have hlen : v.length < (c :: t).length := by
          rw [← huv]
          cases u with
          | nil => exact absurd rfl hne
          | cons y u2 => simp [List.length_append]; omega
        rw [dif_pos hlen] at hd
        rw [Bool.and_eq_true] at hd
        obtain ⟨hd1, hd2⟩ := hd
        obtain ⟨d, hu, hp⟩ := clsMatch_iff.mp hd1
        subst hu
        rw [List.cons_append, List.nil_append, List.cons_eq_cons] at huv
        obtain ⟨hdc, hvt⟩ := huv
        subst hdc; subst hvt
        obtain ⟨-, hallt⟩ := ih.mp hd2
        refine ⟨by simp, ?_⟩
        intro x hx
        rcases List.mem_cons.mp hx with h | h
        · subst h; exact hp
        · exact hallt x h
    · rintro ⟨-, hall⟩
      have hpc : p c = true := hall c (List.mem_cons_self c t)
      cases t with
      | nil =>
        left
        simp [clsMatch, hpc]
      | cons d t2 =>
        right
        refine ⟨([c], d :: t2), mem_splitsNE.mpr ⟨by simp, by simp⟩, ?_⟩
        rw [dif_pos (by simp)]
        rw [Bool.and_eq_true]
        refine ⟨by simp [clsMatch, hpc], ?_⟩
        exact ih.mpr ⟨by simp, fun x hx => hall x (List.mem_cons_of_mem _ hx)⟩

theorem rmatch_seq_iff {a b : RE} {s : List Char} :
    rmatch (RE.seq a b) s = true ↔
      ∃ u v, u ++ v = s ∧ rmatch a u = true ∧ rmatch b v = true := by
  rw [rmatch]
  simp only [List.any_eq_true]
  constructor
  · rintro ⟨⟨u, v⟩, hm, hab⟩
    rw [Bool.and_eq_true] at hab
    exact ⟨u, v, mem_splits.mp hm, hab.1, hab.2⟩
  · rintro ⟨u, v, he, ha, hb⟩
    exact ⟨(u, v), mem_splits.mpr he, by simp [ha, hb]⟩

theorem rmatch_cls_iff {p : Char → Bool} {s : List Char} :
    rmatch (RE.cls p) s = true ↔ ∃ c, s = [c] ∧ p c = true := by
  rw [rmatch]; exact clsMatch_iff

theorem rmatch_plus_cls_iff {p : Char → Bool} {s : List Char} :
    rmatch (RE.plus (RE.cls p)) s = true ↔ s ≠ [] ∧ ∀ c ∈ s, p c = true := by
  rw [rmatch]
  have he : (fun u => rmatch (RE.cls p) u) = clsMatch p := by
    funext u; rw [rmatch]
  rw [he]
  exact rmatchPlus_cls_iff s

theorem validate_email_shape (s : String) :
    ValidationMethods.validate_email s = true ↔
      ∃ a b c : List Char, s.data = a ++ '@' :: (b ++ '.' :: c) ∧
        a ≠ [] ∧ (∀ x ∈ a, wdChar x = true) ∧
        b ≠ [] ∧ (∀ x ∈ b, wdChar x = true) ∧
        c ≠ [] ∧ (∀ x ∈ c, isWordChar x = true) := by
  unfold ValidationMethods.validate_email emailRE
  constructor
  · intro h
    rw [rmatch_seq_iff] at h
    obtain ⟨u1, v1, h1, ha1, h⟩ := h
    rw [rmatch_seq_iff] at h
    obtain ⟨u2, v2, h2, ha2, h⟩ := h
    rw [rmatch_seq_iff] at h
    obtain ⟨u3, v3, h3, ha3, h⟩ := h
    rw [rmatch_seq_iff] at h
    obtain ⟨u4, v4, h4, ha4, h5⟩ := h
    rw [rmatch_plus_cls_iff] at ha1 ha3 h5
    rw [rmatch_cls_iff] at ha2 ha4
    obtain ⟨d2, hu2, hp2⟩ := ha2
    obtain ⟨d4, hu4, hp4⟩ := ha4
    have hd2 : d2 = '@' := by simpa using hp2
    have hd4 : d4 = '.' := by simpa using hp4
    subst hd2; subst hd4; subst hu2; subst hu4
    refine ⟨u1, u3, v4, ?_, ha1.1, ha1.2, ha3.1, ha3.2, h5.1, h5.2⟩
    rw [← h1, ← h2, ← h3, ← h4]
    simp
  · rintro ⟨a, b, c, heq, hna, hwa, hnb, hwb, hnc, hwc⟩
    rw [rmatch_seq_iff]
    refine ⟨a, '@' :: (b ++ '.' :: c), by rw [heq], ?_, ?_⟩
    · exact rmatch_plus_cls_iff.mpr ⟨hna, hwa⟩
    rw [rmatch_seq_iff]
    refine ⟨['@'], b ++ '.' :: c, by simp, ?_, ?_⟩
    · exact rmatch_cls_iff.mpr ⟨'@', rfl, by simp⟩
    rw [rmatch_seq_iff]
    refine ⟨b, '.' :: c, by simp, ?_, ?_⟩
    · exact rmatch_plus_cls_iff.mpr ⟨hnb, hwb⟩
    rw [rmatch_seq_iff]
    refine ⟨['.'], c, by simp, ?_, ?_⟩
    · exact rmatch_cls_iff.mpr ⟨'.', rfl, by simp⟩
    · exact rmatch_plus_cls_iff.mpr ⟨hnc, hwc⟩

theorem isFatal_addOutput {T : Type} (pre : List OutLine) (o : Outcome T) :
    isFatal (addOutput pre o) = isFatal o := by
  cases o <;> simp [addOutput, isFatal]

theorem isRet_addOutput {T : Type} (pre : List OutLine) (o : Outcome T) :
    isRet (addOutput pre o) = isRet o := by
  cases o <;> simp [addOutput, isRet]

theorem outputOf_addOutput {T : Type} (pre : List OutLine) (o : Outcome T) :
    outputOf (addOutput pre o) = pre ++ outputOf o := by
  cases o <;> simp [addOutput, outputOf]

theorem isFatal_imp_hasReadErr {T : Type} (prompt : String) (v : Validator)
    (parse : String → Option T) (n : Nat) (src : List ReadResult)
    (h : isFatal (read_input_with_cursor prompt v parse n src) = true) :
    hasReadErr src = true := by
  induction n generalizing src with
  | zero => simp [read_input_with_cursor, isFatal] at h
  | succ n ih =>
    cases src with
    | nil =>
      exfalso
      rw [read_input_with_cursor] at h
      simp only [readLine] at h
      cases hp : parse (rustTrim "") with
      | some value =>
        rw [hp] at h
        by_cases hv : v.validate (rustTrim "") = true
        · simp [hv, isFatal] at h
        · simp [hv, isFatal_addOutput] at h
          have := ih [] h
          simp [hasReadErr] at this
      | none =>
        rw [hp] at h
        rw [isFatal_addOutput] at h
        have := ih [] h
        simp [hasReadErr] at this
    | cons r t =>
      cases r with
      | err => simp [hasReadErr]
      | ok line =>
        show hasReadErr (ReadResult.ok line :: t) = true
        have ht : hasReadErr t = true := by
          rw [read_input_with_cursor] at h
          simp only [readLine] at h
          cases hp : parse (rustTrim line) with
          | some value =>
            rw [hp] at h
            by_cases hv : v.validate (rustTrim line) = true
            · simp [hv, isFatal] at h
            · simp [hv, isFatal_addOutput] at h
              exact ih t h
          | none =>
            rw [hp] at h
            rw [isFatal_addOutput] at h
            exact ih t h
        simp [hasReadErr, ht]

theorem eof_never_returns_nor_aborts (n : Nat) :
    isFatal (read_input_with_cursor "Enter name:" nameValidator parseString n []) = false ∧
    isRet (read_input_with_cursor "Enter name:" nameValidator parseString n []) = false := by
  induction n with
  | zero => simp [read_input_with_cursor, isFatal, isRet]
  | succ n ih =>
    rw [read_input_with_cursor]
    simp only [readLine, parseString]
    have hv : nameValidator.validate (rustTrim "") = false := by decide
    simp [hv, isFatal_addOutput, isRet_addOutput]
    exact ih

theorem convert_diag_not_mem_string_target (prompt : String) (v : Validator)
    (n : Nat) (src : List ReadResult) :
    OutLine.diag convertMsg ∉ outputOf (read_input_with_cursor prompt v parseString n src) := by
  have hne : invalidMsg ≠ convertMsg := by decide
  induction n generalizing src with
  | zero => simp [read_input_with_cursor, outputOf]
  | succ n ih =>
    cases src with
    | nil =>
      rw [read_input_with_cursor]
      simp only [readLine, parseString]
      by_cases hv : v.validate (rustTrim "") = true
      · simp [hv, outputOf]
      · simp [hv, outputOf_addOutput, hne]
        exact ⟨fun hh => hne hh.symm, ih []⟩
    | cons r t =>
      cases r with
      | err =>
        rw [read_input_with_cursor]
        simp only [readLine]
        simp [outputOf]
      | ok line =>
        rw [read_input_with_cursor]
        simp only [readLine, parseString]
        by_cases hv : v.validate (rustTrim line) = true
        · simp [hv, outputOf]
        · simp [hv, outputOf_addOutput, hne]
          exact ⟨fun hh => hne hh.symm, ih t⟩

theorem read_step_eq {T : Type} (prompt : String) (v : Validator)
    (parse : String → Option T) (n : Nat) (line : String) (rest : List ReadResult)
    (value : T) (h : parse (rustTrim line) = some value) :
    read_input_with_cursor prompt v parse (n + 1) (ReadResult.ok line :: rest) =
      if v.validate (rustTrim line) = true then
        Outcome.ret value [OutLine.prompt prompt] rest
      else
        addOutput [OutLine.prompt prompt, OutLine.diag invalidMsg]
          (read_input_with_cursor prompt v parse n rest) := by
  rw [read_input_with_cursor]
  simp only [readLine]
  rw [h]

/-- C1 counterexample: with the line source exhausted (no remaining line),
three iterations of the prompting loop re-prompt with an "invalid input"
diagnostic each time and do not abort — the claimed fatal path is not taken. -/
theorem eof_does_not_abort_counterexample :
    read_input_with_cursor "Enter name:" nameValidator parseString 3 [] =
      Outcome.spin
        [OutLine.prompt "Enter name:", OutLine.diag invalidMsg,
         OutLine.prompt "Enter name:", OutLine.diag invalidMsg,
         OutLine.prompt "Enter name:", OutLine.diag invalidMsg] [] ∧
    isFatal (read_input_with_cursor "Enter name:" nameValidator parseString 3 []) = false := by
  decide

/-- C1 (amended): the fatal abort happens only when the source yields an
actual read error; on an exhausted source the read yields an empty line,
and the loop (here with the name validator, which rejects the empty line)
re-prompts forever: it neither aborts nor returns, for any number of
iterations. -/
theorem read_abort_only_on_read_error :
    (∀ (T : Type) (prompt : String) (v : Validator) (parse : String → Option T)
       (n : Nat) (src : List ReadResult),
       isFatal (read_input_with_cursor prompt v parse n src) = true →
       hasReadErr src = true)
    ∧ (∀ n : Nat,
       isFatal (read_input_with_cursor "Enter name:" nameValidator parseString n []) = false ∧
       isRet (read_input_with_cursor "Enter name:" nameValidator parseString n []) = false) :=
  ⟨fun _ prompt v parse n src h => isFatal_imp_hasReadErr prompt v parse n src h,
   eof_never_returns_nor_aborts⟩

/-- Witness for C1 (amended): a source whose first read errors makes the
loop abort, and that source indeed contains a read error. -/
theorem read_abort_only_on_read_error_witness :
    hasReadErr [ReadResult.err] = true :=
  read_abort_only_on_read_error.1 String "p" nameValidator parseString 1
    [ReadResult.err] (by decide)

/-- C2 counterexample: the vulgar fraction one half is not a decimal digit
(category No, not Nd), yet `validate_name` rejects the string made of it,
refuting "no decimal digits implies true". -/
theorem validate_name_counterexample :
    ("½".data.all fun c => !(isNd c)) = true ∧
    ValidationMethods.validate_name "½" = false := by
  decide

/-- C2 (amended): any string containing a decimal-digit character is
rejected by `validate_name`; any string none of whose characters is
Unicode-numeric (categories Nd, Nl, No) is accepted, the empty string
included. -/
theorem validate_name_digit_free :
    (∀ s : String, (∃ c ∈ s.data, isNd c = true) →
       ValidationMethods.validate_name s = false)
    ∧ (∀ s : String, (∀ c ∈ s.data, rust_is_numeric c = false) →
       ValidationMethods.validate_name s = true)
    ∧ ValidationMethods.validate_name "" = true := by
  refine ⟨?_, ?_, by decide⟩
  · rintro s ⟨c, hc, hnd⟩
    have hnum : rust_is_numeric c = true := by simp [rust_is_numeric, hnd]
    simp [ValidationMethods.validate_name, List.any_eq_true]
    exact ⟨c, hc, hnum⟩
  · intro s h
    simp [ValidationMethods.validate_name, List.any_eq_true]
    intro c hc
    simp [h c hc]

/-- Witness for C2 (amended): a string with a digit is rejected, a
digit-free (indeed numeric-free) string is accepted. -/
theorem validate_name_digit_free_witness :
    ValidationMethods.validate_name "a1" = false ∧
    ValidationMethods.validate_name "abc" = true :=
  ⟨validate_name_digit_free.1 "a1" ⟨'1', by decide, by decide⟩,
   validate_name_digit_free.2.1 "abc" (by decide)⟩

/-- C3: `validate_email` accepts exactly the strings of the shape
local `@` domain `.` tld with local and domain nonempty over
word/dot/hyphen characters and tld nonempty over word characters; in
particular the two documented examples. -/
theorem validate_email_characterization :
    (∀ s : String, ValidationMethods.validate_email s = true ↔
      ∃ a b c : List Char, s.data = a ++ '@' :: (b ++ '.' :: c) ∧
        a ≠ [] ∧ (∀ x ∈ a, wdChar x = true) ∧
        b ≠ [] ∧ (∀ x ∈ b, wdChar x = true) ∧
        c ≠ [] ∧ (∀ x ∈ c, isWordChar x = true))
    ∧ ValidationMethods.validate_email "test@example.com" = true
    ∧ ValidationMethods.validate_email "invalid-email" = false := by
  refine ⟨validate_email_shape, ?_, ?_⟩
  · exact (validate_email_shape _).mpr
      ⟨"test".data, "example".data, "com".data, by decide, by decide, by decide,
       by decide, by decide, by decide, by decide⟩
  · refine Bool.eq_false_iff.mpr fun hv => ?_
    obtain ⟨a, b, c, heq, -⟩ := (validate_email_shape _).mp hv
    have hat : '@' ∈ "invalid-email".data := by rw [heq]; simp
    exact absurd hat (by decide)

/-- Witness for C3: the characterization applied to a small concrete
address. -/
theorem validate_email_characterization_witness :
    ValidationMethods.validate_email "a@b.c" = true :=
  (validate_email_characterization.1 "a@b.c").mpr
    ⟨['a'], ['b'], ['c'], by decide, by decide, by decide, by decide,
     by decide, by decide, by decide⟩

/-- C4: a composite validator accepts exactly the inputs accepted by all
its stored predicates, vacuously accepts everything when empty, and the
name validator behaves as documented on "John", "John123", "". -/
theorem validator_validate_conjunction :
    (∀ (v : Validator) (input : String),
       v.validate input = true ↔ ∀ f ∈ v.validations, f input = true)
    ∧ (∀ input : String, (Validator.new []).validate input = true)
    ∧ nameValidator.validate "John" = true
    ∧ nameValidator.validate "John123" = false
    ∧ nameValidator.validate "" = false := by
  refine ⟨?_, ?_, by decide, by decide, by decide⟩
  · intro v input
    simp [Validator.validate, List.all_eq_true]
  · intro input
    simp [Validator.validate, Validator.new]

/-- Witness for C4: the conjunction characterization applied to the name
validator on a concrete accepted input. -/
theorem validator_validate_conjunction_witness :
    nameValidator.validate "Jo" = true :=
  (validator_validate_conjunction.1 nameValidator "Jo").mpr (by decide)

/-- C5: in one loop iteration the raw line is trimmed before parsing, the
validator runs on the trimmed raw text (not the parsed value), and the
parsed value is returned exactly when that validation succeeds. -/
theorem loop_trims_parses_then_validates_trimmed {T : Type} (prompt : String)
    (v : Validator) (parse : String → Option T) (n : Nat) (line : String)
    (rest : List ReadResult) (value : T)
    (h : parse (rustTrim line) = some value) :
    read_input_with_cursor prompt v parse (n + 1) (ReadResult.ok line :: rest) =
      if v.validate (rustTrim line) = true then
        Outcome.ret value [OutLine.prompt prompt] rest
      else
        addOutput [OutLine.prompt prompt, OutLine.diag invalidMsg]
          (read_input_with_cursor prompt v parse n rest) :=
  read_step_eq prompt v parse n line rest value h

/-- Witness for C5: the line " 42 \n" is trimmed to "42", parses to 42,
the trimmed text passes the age validator, and 42 is returned. -/
theorem loop_trims_parses_then_validates_trimmed_witness :
    read_input_with_cursor "Enter age:" ageValidator parse_u32 1
        [ReadResult.ok " 42 \n"] =
      Outcome.ret 42 [OutLine.prompt "Enter age:"] [] := by
  rw [loop_trims_parses_then_validates_trimmed "Enter age:" ageValidator parse_u32 0
    " 42 \n" [] 42 (by decide)]
  decide

/-- C6: on the single line "John\n" with the name validator and string
target, the loop returns "John" in one iteration, printing exactly one
prompt and no diagnostics, and consuming the one line of the source. -/
theorem one_valid_line_returns_first_iteration :
    read_input_with_cursor "Enter name:" nameValidator parseString 1
        [ReadResult.ok "John\n"] =
      Outcome.ret "John" [OutLine.prompt "Enter name:"] [] := by
  decide

/-- C7: on "John123\n" then "John\n" with the name validator and string
target, the loop prints exactly one "invalid input" diagnostic and returns
"John" after two iterations. -/
theorem invalid_then_valid_returns_second_iteration :
    read_input_with_cursor "Enter name:" nameValidator parseString 2
        [ReadResult.ok "John123\n", ReadResult.ok "John\n"] =
      Outcome.ret "John"
        [OutLine.prompt "Enter name:", OutLine.diag invalidMsg,
         OutLine.prompt "Enter name:"] [] := by
  decide

/-- C8: on "abc\n" then "42\n" with an unsigned-integer target, the loop
prints exactly one "failed to convert" diagnostic (and no "invalid input"
diagnostic) and returns 42 after two iterations. -/
theorem unparsable_then_valid_returns_second_iteration :
    read_input_with_cursor "Enter age:" ageValidator parse_u32 2
        [ReadResult.ok "abc\n", ReadResult.ok "42\n"] =
      Outcome.ret 42
        [OutLine.prompt "Enter age:", OutLine.diag convertMsg,
         OutLine.prompt "Enter age:"] [] := by
  decide

/-- C9: with a string target the parse never fails, so no run of the loop
ever prints the "failed to convert" diagnostic, and every iteration on a
line either returns the trimmed text or prints the "invalid input"
diagnostic and loops. -/
theorem string_target_no_convert_diagnostic :
    (∀ (prompt : String) (v : Validator) (n : Nat) (src : List ReadResult),
       (outputOf (read_input_with_cursor prompt v parseString n src)).contains
         (OutLine.diag convertMsg) = false)
    ∧ (∀ (prompt : String) (v : Validator) (n : Nat) (line : String)
         (rest : List ReadResult),
       read_input_with_cursor prompt v parseString (n + 1) (ReadResult.ok line :: rest) =
         if v.validate (rustTrim line) = true then
           Outcome.ret (rustTrim line) [OutLine.prompt prompt] rest
         else
           addOutput [OutLine.prompt prompt, OutLine.diag invalidMsg]
             (read_input_with_cursor prompt v parseString n rest)) := by
  constructor
  · intro prompt v n src
    have hmem := convert_diag_not_mem_string_target prompt v n src
    have hc : (outputOf (read_input_with_cursor prompt v parseString n src)).contains
        (OutLine.diag convertMsg) =
        (outputOf (read_input_with_cursor prompt v parseString n src)).elem
        (OutLine.diag convertMsg) := rfl
    rw [hc, List.elem_eq_mem]
    simp [hmem]
  · intro prompt v n line rest
    exact read_step_eq prompt v parseString n line rest (rustTrim line) rfl

/-- Witness for C9: a concrete string-target run whose output contains no
"failed to convert" diagnostic. -/
theorem string_target_no_convert_diagnostic_witness :
    (outputOf (read_input_with_cursor "q" nameValidator parseString 2 [])).contains
      (OutLine.diag convertMsg) = false :=
  string_target_no_convert_diagnostic.1 "q" nameValidator 2 []

/-- C10: `validate_name` rejects any string containing a character of any
Unicode Number category (Nd, Nl or No); in particular it rejects the
Roman numeral twelve and the fraction one half although neither is a
decimal digit. -/
theorem validate_name_rejects_all_number_categories :
    (∀ s : String, (∃ c ∈ s.data, rust_is_numeric c = true) →
       ValidationMethods.validate_name s = false)
    ∧ isNd 'Ⅻ' = false ∧ isNd '½' = false
    ∧ ValidationMethods.validate_name "Ⅻ" = false
    ∧ ValidationMethods.validate_name "½" = false := by
  refine ⟨?_, by decide, by decide, by decide, by decide⟩
  rintro s ⟨c, hc, hnum⟩
  simp [ValidationMethods.validate_name, List.any_eq_true]
  exact ⟨c, hc, hnum⟩

/-- Witness for C10: a string containing the fraction one half is
rejected. -/
theorem validate_name_rejects_all_number_categories_witness :
    ValidationMethods.validate_name "x½" = false :=
  validate_name_rejects_all_number_categories.1 "x½" ⟨'½', by decide, by decide⟩
